import Mathlib

/-!
Shallow embedding of the two tracking scripts of this repository,
`src/ALL.py` and `src/KCF.py`.  Both scripts are linear pipelines:
pick an algorithm name, build a tracker through a factory, open a video
source, read the first frame, let the user draw a region of interest,
initialise the tracker, open an output text file, then loop over the
remaining frames calling the tracker's update, drawing overlays and
writing one comma-separated line per frame.

The embedding models the environment (library availability, whether the
video opens, the number of frames, the drawn region, per-frame tracker
outcomes, per-frame escape-key presses) as an explicit record, and a run
as a pure function from that record to an observable result: the lines
written to the output file, which resources were acquired and released,
how many times the tracker was initialised, and what was rendered on
each processed frame.
-/

namespace Exp

/-- A bounding box as the tracker's update returns it, after the scripts
cast each coordinate with `int(...)` (ALL.py line 127, KCF.py line 100). -/
structure Box where
  x : Int
  y : Int
  w : Int
  h : Int
deriving DecidableEq, Repr

/-- One line of the output text file.  `algoHeader` is the
`Algorithm: {name}` line ALL.py writes (line 101), `colHeader` is the
`Frame_ID, X, Y, W, H` line both scripts write (ALL.py line 102,
KCF.py line 73), `data` is a per-frame comma-separated row. -/
inductive Line where
  | algoHeader (name : String)
  | colHeader
  | data (frameId : Nat) (x y w h : Int)
deriving DecidableEq, Repr

/-- What was drawn on one processed frame: a rectangle on tracking
success, the "Tracking failure detected" overlay on failure. -/
structure Render where
  frameId : Nat
  drewRect : Bool
  drewWarning : Bool
deriving DecidableEq, Repr

/-- The external environment of one run: what the OpenCV library
provides, how the video source behaves, what the user does. -/
structure Env where
  /-- Whether `cv2.Tracker{T}_create` exists for the (uppercased) name,
  i.e. whether the constructor call raises `AttributeError`. -/
  ctorOk : String → Bool
  /-- Whether `cv2.legacy.TrackerKCF_create` exists (KCF.py fallback,
  lines 23-26). -/
  legacyKCF : Bool
  /-- Whether `video.isOpened()` is true after `cv2.VideoCapture`. -/
  videoOpens : Bool
  /-- Total number of frames `video.read()` will deliver. -/
  numFrames : Nat
  /-- The rectangle returned by `cv2.selectROI`. -/
  roiX : Nat
  roiY : Nat
  roiW : Nat
  roiH : Nat
  /-- Whether `open(OUTPUT_TXT, "w")` succeeds (no `IOError`). -/
  outputWritable : Bool
  /-- Outcome of `tracker.update` on the frame with the given id:
  `some box` on success, `none` on tracking failure. -/
  update : Nat → Option Box
  /-- Whether the escape key is pressed during the iteration with the
  given frame id. -/
  esc : Nat → Bool

/-- The observable result of one run of either script. -/
structure RunResult where
  /-- The content of the output file, `none` when the run never
  created (or truncated) it. -/
  fileLines : Option (List Line)
  /-- Whether `cv2.VideoCapture(...)` was called. -/
  videoOpenAttempted : Bool
  /-- Whether a display window was shown (`selectROI` / `imshow`). -/
  windowShown : Bool
  /-- How many times `tracker.init` was called. -/
  initCalls : Nat
  /-- Whether `video.release()` was called. -/
  videoReleased : Bool
  /-- Whether `cv2.destroyAllWindows()` was called. -/
  windowsDestroyed : Bool
  /-- Whether `f_out.close()` was called. -/
  fileClosed : Bool
  /-- What was rendered on each processed frame, in order. -/
  renders : List Render
deriving DecidableEq, Repr

/-- Python's `str.upper()` as both factories call it on the algorithm
name (ALL.py line 30, KCF.py line 15): uppercase every character. -/
def pyUpper (s : String) : String :=
  ⟨s.data.map Char.toUpper⟩

/-- `TRACKER_TYPES` of ALL.py line 11. -/
def TRACKER_TYPES : List String :=
  ["BOOSTING", "MIL", "KCF", "TLD", "MEDIANFLOW", "MOSSE", "CSRT"]

/-- `create_tracker_by_name` of ALL.py lines 26-56: uppercase the name,
dispatch through the `elif` chain; each branch calls the library
constructor (modelled by `ctorOk`, whose failure is the
`AttributeError` caught at line 53, returning `None`); a name matching
no branch returns `None` (line 52). -/
def create_tracker_by_name (ctorOk : String → Bool) (tracker_type : String) :
    Option String :=
  let t := pyUpper tracker_type
  if t = "BOOSTING" then (if ctorOk "BOOSTING" then some "BOOSTING" else none)
  else if t = "MIL" then (if ctorOk "MIL" then some "MIL" else none)
  else if t = "KCF" then (if ctorOk "KCF" then some "KCF" else none)
  else if t = "TLD" then (if ctorOk "TLD" then some "TLD" else none)
  else if t = "MEDIANFLOW" then
    (if ctorOk "MEDIANFLOW" then some "MEDIANFLOW" else none)
  else if t = "MOSSE" then (if ctorOk "MOSSE" then some "MOSSE" else none)
  else if t = "CSRT" then (if ctorOk "CSRT" then some "CSRT" else none)
  else none

/-- `create_tracker` of KCF.py lines 10-33: uppercase the name; only
`KCF` is supported; try `cv2.TrackerKCF_create`, on `AttributeError`
try `cv2.legacy.TrackerKCF_create`, on a second `AttributeError`
return `None`; any other name returns `None` (line 33). -/
def create_tracker (ctorOk : String → Bool) (legacyKCF : Bool)
    (tracker_type : String) : Option String :=
  let t := pyUpper tracker_type
  if t = "KCF" then
    if ctorOk "KCF" then some "KCF"
    else if legacyKCF then some "KCF"
    else none
  else none

/-- ALL.py lines 61-65: an in-range `SELECTED_INDEX` picks the name from
`TRACKER_TYPES`; out of range falls back to `KCF`. -/
def chooseName (selectedIndex : Int) : String :=
  if 0 ≤ selectedIndex ∧ selectedIndex < (TRACKER_TYPES.length : Int) then
    TRACKER_TYPES.getD selectedIndex.toNat "KCF"
  else
    "KCF"

/-- The output line written for the frame with the given id: the real
coordinates on success (ALL.py line 138, KCF.py line 111), the sentinel
row on failure (ALL.py line 143, KCF.py line 120). -/
def lineFor (update : Nat → Option Box) (frameId : Nat) : Line :=
  match update frameId with
  | some b => Line.data frameId b.x b.y b.w b.h
  | none => Line.data frameId (-1) (-1) (-1) (-1)

/-- What is drawn on the frame with the given id: a rectangle on
success (ALL.py line 130, KCF.py line 103), the warning overlay on
failure (ALL.py line 141, KCF.py line 117). -/
def renderFor (update : Nat → Option Box) (frameId : Nat) : Render :=
  match update frameId with
  | some _ => ⟨frameId, true, false⟩
  | none => ⟨frameId, false, true⟩

/-- The `while True` loop shared verbatim between ALL.py lines 109-154
and KCF.py lines 81-134: read a frame (break when the source is
exhausted, i.e. no frames remain), increment `frame_id`, call
`tracker.update`, write the success or sentinel line, render, then
break if the escape key is pressed.  `remaining` is the number of
frames `video.read()` can still deliver; `frame_id` is its value before
the increment.  Returns the data lines written and the renders, in
order. -/
def trackLoop (update : Nat → Option Box) (esc : Nat → Bool) :
    Nat → Nat → List Line × List Render
  | 0, _ => ([], [])
  | remaining + 1, frame_id =>
    let fid := frame_id + 1
    let line := lineFor update fid
    let r := renderFor update fid
    if esc fid then ([line], [r])
    else
      let rest := trackLoop update esc remaining fid
      (line :: rest.1, r :: rest.2)

/-- `main` of ALL.py lines 59-159, parameterised by the algorithm name
chosen in its step 1 (lines 61-65): factory (exit on `None`, lines
68-70), `cv2.VideoCapture` and `isOpened` check (lines 73-78), first
`video.read()` (lines 81-84), `selectROI` (line 89) and the empty-box
check (lines 91-93), `tracker.init` (line 96), `open(OUTPUT_TXT, "w")`
with its two header lines (lines 99-105), the frame loop (lines
107-154), and the final `release` / `destroyAllWindows` / `close`
(lines 156-158).  Every `sys.exit()` path returns immediately with the
resources in the state they were left in. -/
def runALL (env : Env) (tracker_name : String) : RunResult :=
  match create_tracker_by_name env.ctorOk tracker_name with
  | none =>
    ⟨none, false, false, 0, false, false, false, []⟩
  | some _ =>
    if env.videoOpens then
      if 1 ≤ env.numFrames then
        if env.roiW = 0 ∨ env.roiH = 0 then
          ⟨none, true, true, 0, false, false, false, []⟩
        else
          if env.outputWritable then
            let loop := trackLoop env.update env.esc (env.numFrames - 1) 1
            ⟨some (Line.algoHeader tracker_name :: Line.colHeader :: loop.1),
              true, true, 1, true, true, true, loop.2⟩
          else
            ⟨none, true, true, 1, false, false, false, []⟩
      else
        ⟨none, true, false, 0, false, false, false, []⟩
    else
      ⟨none, true, false, 0, false, false, false, []⟩

/-- `main` of ALL.py including its step 1 (lines 61-65): the name is
chosen from `SELECTED_INDEX` with the out-of-range fallback to `KCF`. -/
def mainALL (env : Env) (selectedIndex : Int) : RunResult :=
  runALL env (chooseName selectedIndex)

/-- `main` of KCF.py lines 35-140, parameterised by `TRACKER_TYPE`
(line 8): factory (exit on `None`, lines 37-39), `cv2.VideoCapture`
and `isOpened` check (lines 43-48), first `video.read()` (lines
51-54), `selectROI` (line 58) and the empty-box check (lines 62-64),
`tracker.init` (line 67), `open(OUTPUT_TXT, "w")` with its single
header line (lines 70-77), the frame loop (lines 79-134), and the
final `release` / `destroyAllWindows` / `close` (lines 137-139). -/
def runKCF (env : Env) (tracker_type : String) : RunResult :=
  match create_tracker env.ctorOk env.legacyKCF tracker_type with
  | none =>
    ⟨none, false, false, 0, false, false, false, []⟩
  | some _ =>
    if env.videoOpens then
      if 1 ≤ env.numFrames then
        if env.roiW = 0 ∨ env.roiH = 0 then
          ⟨none, true, true, 0, false, false, false, []⟩
        else
          if env.outputWritable then
            let loop := trackLoop env.update env.esc (env.numFrames - 1) 1
            ⟨some (Line.colHeader :: loop.1),
              true, true, 1, true, true, true, loop.2⟩
          else
            ⟨none, true, true, 1, false, false, false, []⟩
      else
        ⟨none, true, false, 0, false, false, false, []⟩
    else
      ⟨none, true, false, 0, false, false, false, []⟩

/-- Whether an output line is a data row (as opposed to a header). -/
def Line.isData : Line → Bool
  | Line.data _ _ _ _ _ => true
  | _ => false

/-- The data rows of an output file, in order. -/
def dataRows (ls : List Line) : List Line :=
  ls.filter Line.isData

/-- The number of header (non-data) lines of an output file. -/
def headerCount (ls : List Line) : Nat :=
  (ls.filter fun l => ! l.isData).length

/-- The frame ids of the data rows of an output file, in order. -/
def lineIds (ls : List Line) : List Nat :=
  ls.filterMap fun l =>
    match l with
    | Line.data fid _ _ _ _ => some fid
    | _ => none

/-- The content of the output file after a run of ALL.py, given its
content before the run: `open(OUTPUT_TXT, "w")` truncates, so a run
that reaches the writing stage replaces the content wholesale, and a
run that exits earlier leaves it untouched. -/
def fileAfterALL (prev : Option (List Line)) (env : Env)
    (tracker_name : String) : Option (List Line) :=
  match (runALL env tracker_name).fileLines with
  | some ls => some ls
  | none => prev

/-- The content of the output file after a run of KCF.py, given its
content before the run. -/
def fileAfterKCF (prev : Option (List Line)) (env : Env)
    (tracker_type : String) : Option (List Line) :=
  match (runKCF env tracker_type).fileLines with
  | some ls => some ls
  | none => prev

/-- A concrete environment used by witnesses: the library provides
every constructor, the video opens and has three frames, the user
draws a 5-by-5 box, the output is writable, tracking succeeds on frame
2 and fails on frame 3, no escape press. -/
def exEnv : Env :=
  ⟨fun _ => true, true, true, 3, 10, 20, 5, 5, true,
    fun fid => if fid = 2 then some ⟨7, 8, 9, 10⟩ else none,
    fun _ => false⟩

/-- A concrete environment where the video opens and has three frames
but the user draws a zero-width box. -/
def envEmptyROI : Env :=
  ⟨fun _ => true, true, true, 3, 10, 20, 0, 5, true,
    fun _ => none, fun _ => false⟩

/-- A concrete environment where the video source does not open. -/
def envNoVideo : Env :=
  ⟨fun _ => true, true, false, 3, 10, 20, 5, 5, true,
    fun _ => none, fun _ => false⟩

/-! ### Supporting lemmas -/

theorem create_tracker_by_name_eq_none (ctorOk : String → Bool)
    (name : String) (h : pyUpper name ∉ TRACKER_TYPES) :
    create_tracker_by_name ctorOk name = none := by
  simp only [TRACKER_TYPES, List.mem_cons, List.not_mem_nil, or_false,
    not_or] at h
  obtain ⟨h1, h2, h3, h4, h5, h6, h7⟩ := h
  simp [create_tracker_by_name, h1, h2, h3, h4, h5, h6, h7]

theorem create_tracker_by_name_eq_some (ctorOk : String → Bool)
    (name : String) (h : pyUpper name ∈ TRACKER_TYPES)
    (hc : ctorOk (pyUpper name) = true) :
    create_tracker_by_name ctorOk name = some (pyUpper name) := by
  simp only [TRACKER_TYPES, List.mem_cons, List.not_mem_nil, or_false] at h
  rcases h with h | h | h | h | h | h | h <;>
    rw [h] at hc <;> simp [create_tracker_by_name, h, hc]

theorem create_tracker_eq_none (ctorOk : String → Bool) (legacyKCF : Bool)
    (name : String) (h : pyUpper name ≠ "KCF") :
    create_tracker ctorOk legacyKCF name = none := by
  simp [create_tracker, h]

theorem create_tracker_eq_some (ctorOk : String → Bool) (legacyKCF : Bool)
    (name : String) (h : pyUpper name = "KCF") (hc : ctorOk "KCF" = true) :
    create_tracker ctorOk legacyKCF name = some "KCF" := by
  simp [create_tracker, h, hc]

theorem lineFor_isData (update : Nat → Option Box) (fid : Nat) :
    (lineFor update fid).isData = true := by
  cases h : update fid <;> simp [lineFor, h, Line.isData]

theorem lineIds_lineFor_cons (update : Nat → Option Box) (fid : Nat)
    (ls : List Line) :
    lineIds (lineFor update fid :: ls) = fid :: lineIds ls := by
  cases h : update fid <;> simp [lineIds, lineFor, h]

/-- With no escape press the loop runs until the source is exhausted,
producing one line and one render per remaining frame, with frame ids
counting up from `frame_id + 1`. -/
theorem trackLoop_noEsc (update : Nat → Option Box) (esc : Nat → Bool)
    (h : ∀ n, esc n = false) (rem : Nat) :
    ∀ fid, trackLoop update esc rem fid =
      ((List.range' (fid + 1) rem).map (lineFor update),
       (List.range' (fid + 1) rem).map (renderFor update)) := by
  induction rem with
  | zero => intro fid; simp [trackLoop]
  | succ n ih =>
    intro fid
    rw [List.range'_succ]
    simp [trackLoop, h, ih (fid + 1)]

/-- Whatever the escape presses, the frame ids of the lines the loop
writes count up by one from `frame_id + 1`. -/
theorem trackLoop_ids (update : Nat → Option Box) (esc : Nat → Bool)
    (rem : Nat) :
    ∀ fid, lineIds (trackLoop update esc rem fid).1 =
      List.range' (fid + 1) (lineIds (trackLoop update esc rem fid).1).length := by
  induction rem with
  | zero => intro fid; simp [trackLoop, lineIds]
  | succ n ih =>
    intro fid
    cases he : esc (fid + 1) with
    | true =>
      simp only [trackLoop, he, if_true]
      rw [lineIds_lineFor_cons]
      simp [lineIds]
    | false =>
      simp only [trackLoop, he, Bool.false_eq_true, if_false]
      rw [lineIds_lineFor_cons, ih (fid + 1), List.length_cons,
        List.range'_succ]
      simp

theorem dataRows_map_lineFor (update : Nat → Option Box) (xs : List Nat) :
    dataRows (xs.map (lineFor update)) = xs.map (lineFor update) := by
  simp only [dataRows]
  rw [List.filter_eq_self]
  intro l hl
  rcases List.mem_map.mp hl with ⟨x, _, rfl⟩
  exact lineFor_isData update x

theorem headerCount_map_lineFor (update : Nat → Option Box) (xs : List Nat) :
    headerCount (xs.map (lineFor update)) = 0 := by
  simp only [headerCount, List.length_eq_zero]
  rw [List.filter_eq_nil_iff]
  intro l hl
  rcases List.mem_map.mp hl with ⟨x, _, rfl⟩
  simp [lineFor_isData update x]

/-- When the tracker is created, the video opens, a first frame is
read, the region is non-empty and the output opens, `runALL` reaches
the frame loop and releases everything at the end. -/
theorem runALL_success (env : Env) (name t : String)
    (hc : create_tracker_by_name env.ctorOk name = some t)
    (hv : env.videoOpens = true) (hn : 1 ≤ env.numFrames)
    (hw : env.roiW ≠ 0) (hh : env.roiH ≠ 0)
    (hout : env.outputWritable = true) :
    runALL env name =
      ⟨some (Line.algoHeader name :: Line.colHeader ::
          (trackLoop env.update env.esc (env.numFrames - 1) 1).1),
        true, true, 1, true, true, true,
        (trackLoop env.update env.esc (env.numFrames - 1) 1).2⟩ := by
  unfold runALL
  rw [hc]
  simp [hv, hn, hw, hh, hout]

/-- Counterpart of `runALL_success` for KCF.py. -/
theorem runKCF_success (env : Env) (name t : String)
    (hc : create_tracker env.ctorOk env.legacyKCF name = some t)
    (hv : env.videoOpens = true) (hn : 1 ≤ env.numFrames)
    (hw : env.roiW ≠ 0) (hh : env.roiH ≠ 0)
    (hout : env.outputWritable = true) :
    runKCF env name =
      ⟨some (Line.colHeader ::
          (trackLoop env.update env.esc (env.numFrames - 1) 1).1),
        true, true, 1, true, true, true,
        (trackLoop env.update env.esc (env.numFrames - 1) 1).2⟩ := by
  unfold runKCF
  rw [hc]
  simp [hv, hn, hw, hh, hout]

theorem headerCount_cons_header (l : Line) (h : l.isData = false)
    (ls : List Line) : headerCount (l :: ls) = headerCount ls + 1 := by
  simp [headerCount, List.filter_cons, h]

theorem dataRows_cons_header (l : Line) (h : l.isData = false)
    (ls : List Line) : dataRows (l :: ls) = dataRows ls := by
  simp [dataRows, List.filter_cons, h]

theorem getElem?_map_range' {α : Type} (f : Nat → α) (s n i : Nat)
    (h : i < n) : ((List.range' s n).map f)[i]? = some (f (s + i)) := by
  rw [List.getElem?_map, List.getElem?_eq_getElem (by simpa using h)]
  simp [List.getElem_range']

/-- Inversion: `runALL` writes the output file only on the path that
reaches the frame loop, and then the content is the two headers
followed by the loop's lines. -/
theorem runALL_fileLines_some (env : Env) (name : String) (ls : List Line)
    (h : (runALL env name).fileLines = some ls) :
    ls = Line.algoHeader name :: Line.colHeader ::
      (trackLoop env.update env.esc (env.numFrames - 1) 1).1 := by
  unfold runALL at h
  cases hc : create_tracker_by_name env.ctorOk name <;> rw [hc] at h
  · simp at h
  · split_ifs at h
    all_goals simp_all

/-- Inversion counterpart for KCF.py: the content is the single header
followed by the loop's lines. -/
theorem runKCF_fileLines_some (env : Env) (name : String) (ls : List Line)
    (h : (runKCF env name).fileLines = some ls) :
    ls = Line.colHeader ::
      (trackLoop env.update env.esc (env.numFrames - 1) 1).1 := by
  unfold runKCF at h
  cases hc : create_tracker env.ctorOk env.legacyKCF name <;> rw [hc] at h
  · simp at h
  · split_ifs at h
    all_goals simp_all

theorem lineIds_cons_algoHeader (name : String) (ls : List Line) :
    lineIds (Line.algoHeader name :: ls) = lineIds ls := by
  simp [lineIds]

theorem lineIds_cons_colHeader (ls : List Line) :
    lineIds (Line.colHeader :: ls) = lineIds ls := by
  simp [lineIds]

/-! ### Claims -/

/-- C1 (counterexample): the claim says the output file contains
exactly one header line.  ALL.py writes two (lines 101-102: the
`Algorithm: {name}` line, then the column header): at a concrete
three-frame run processed to exhaustion, the file's header count is 2,
not 1. -/
theorem C1_counterexample_two_headers :
    (runALL exEnv "CSRT").fileLines =
      some [Line.algoHeader "CSRT", Line.colHeader,
        Line.data 2 7 8 9 10, Line.data 3 (-1) (-1) (-1) (-1)] ∧
    headerCount [Line.algoHeader "CSRT", Line.colHeader,
        Line.data 2 7 8 9 10, Line.data 3 (-1) (-1) (-1) (-1)] = 2 ∧
    ¬ headerCount [Line.algoHeader "CSRT", Line.colHeader,
        Line.data 2 7 8 9 10, Line.data 3 (-1) (-1) (-1) (-1)] = 1 := by
  refine ⟨by decide, by decide, by decide⟩

/-- C1 (amended): for every run processed to exhaustion with a fixed
non-empty initial box and no user cancellation, the output file of
KCF.py contains exactly one header line and that of ALL.py exactly two
(the algorithm line then the column header), in each case followed by
exactly (total frames - 1) data rows, one comma-separated row
`frame_id, x, y, w, h` per processed frame, with the four numeric
fields all equal to -1 on a tracking failure. -/
theorem C1_output_file_shape (env : Env) (nameA nameK tA tK : String)
    (hcA : create_tracker_by_name env.ctorOk nameA = some tA)
    (hcK : create_tracker env.ctorOk env.legacyKCF nameK = some tK)
    (hv : env.videoOpens = true) (hn : 1 ≤ env.numFrames)
    (hw : env.roiW ≠ 0) (hh : env.roiH ≠ 0)
    (hout : env.outputWritable = true)
    (hesc : ∀ n, env.esc n = false) :
    (runALL env nameA).fileLines =
      some (Line.algoHeader nameA :: Line.colHeader ::
        (List.range' 2 (env.numFrames - 1)).map (lineFor env.update)) ∧
    (runKCF env nameK).fileLines =
      some (Line.colHeader ::
        (List.range' 2 (env.numFrames - 1)).map (lineFor env.update)) ∧
    headerCount (Line.algoHeader nameA :: Line.colHeader ::
      (List.range' 2 (env.numFrames - 1)).map (lineFor env.update)) = 2 ∧
    headerCount (Line.colHeader ::
      (List.range' 2 (env.numFrames - 1)).map (lineFor env.update)) = 1 ∧
    dataRows (Line.algoHeader nameA :: Line.colHeader ::
        (List.range' 2 (env.numFrames - 1)).map (lineFor env.update)) =
      (List.range' 2 (env.numFrames - 1)).map (lineFor env.update) ∧
    dataRows (Line.colHeader ::
        (List.range' 2 (env.numFrames - 1)).map (lineFor env.update)) =
      (List.range' 2 (env.numFrames - 1)).map (lineFor env.update) ∧
    ((List.range' 2 (env.numFrames - 1)).map (lineFor env.update)).length =
      env.numFrames - 1 ∧
    (∀ i b, env.update i = some b →
      lineFor env.update i = Line.data i b.x b.y b.w b.h) ∧
    (∀ i, env.update i = none →
      lineFor env.update i = Line.data i (-1) (-1) (-1) (-1)) := by
  have hA := runALL_success env nameA tA hcA hv hn hw hh hout
  have hK := runKCF_success env nameK tK hcK hv hn hw hh hout
  rw [trackLoop_noEsc env.update env.esc hesc (env.numFrames - 1) 1]
    at hA hK
  refine ⟨by rw [hA], by rw [hK], ?_, ?_, ?_, ?_, ?_, ?_, ?_⟩
  · rw [headerCount_cons_header (Line.algoHeader nameA) rfl,
      headerCount_cons_header Line.colHeader rfl, headerCount_map_lineFor]
  · rw [headerCount_cons_header Line.colHeader rfl, headerCount_map_lineFor]
  · rw [dataRows_cons_header (Line.algoHeader nameA) rfl,
      dataRows_cons_header Line.colHeader rfl, dataRows_map_lineFor]
  · rw [dataRows_cons_header Line.colHeader rfl, dataRows_map_lineFor]
  · rw [List.length_map, List.length_range']
  · intro i b hb; simp [lineFor, hb]
  · intro i hi; simp [lineFor, hi]

theorem C1_witness :
    (runALL exEnv "CSRT").fileLines =
      some (Line.algoHeader "CSRT" :: Line.colHeader ::
        (List.range' 2 (exEnv.numFrames - 1)).map (lineFor exEnv.update)) ∧
    (runKCF exEnv "KCF").fileLines =
      some (Line.colHeader ::
        (List.range' 2 (exEnv.numFrames - 1)).map (lineFor exEnv.update)) ∧
    headerCount (Line.algoHeader "CSRT" :: Line.colHeader ::
      (List.range' 2 (exEnv.numFrames - 1)).map (lineFor exEnv.update)) = 2 ∧
    headerCount (Line.colHeader ::
      (List.range' 2 (exEnv.numFrames - 1)).map (lineFor exEnv.update)) = 1 ∧
    dataRows (Line.algoHeader "CSRT" :: Line.colHeader ::
        (List.range' 2 (exEnv.numFrames - 1)).map (lineFor exEnv.update)) =
      (List.range' 2 (exEnv.numFrames - 1)).map (lineFor exEnv.update) ∧
    dataRows (Line.colHeader ::
        (List.range' 2 (exEnv.numFrames - 1)).map (lineFor exEnv.update)) =
      (List.range' 2 (exEnv.numFrames - 1)).map (lineFor exEnv.update) ∧
    ((List.range' 2 (exEnv.numFrames - 1)).map (lineFor exEnv.update)).length =
      exEnv.numFrames - 1 ∧
    (∀ i b, exEnv.update i = some b →
      lineFor exEnv.update i = Line.data i b.x b.y b.w b.h) ∧
    (∀ i, exEnv.update i = none →
      lineFor exEnv.update i = Line.data i (-1) (-1) (-1) (-1)) := by
  exact C1_output_file_shape exEnv "CSRT" "KCF" "CSRT" "KCF"
    (by decide) (by decide) (by decide) (by decide) (by decide)
    (by decide) (by decide) (fun n => rfl)

/-- C2: the claim says every early-exit path closes the resources
already opened.  The code does not: at a concrete environment where
the video opens, a first frame is read and the user draws a zero-width
box, both scripts exit via `sys.exit()` with the video handle never
released and the `selectROI` window never destroyed. -/
theorem C2_early_exit_leaks_resources :
    envEmptyROI.videoOpens = true ∧
    (runALL envEmptyROI "CSRT").videoOpenAttempted = true ∧
    (runALL envEmptyROI "CSRT").windowShown = true ∧
    (runALL envEmptyROI "CSRT").videoReleased = false ∧
    (runALL envEmptyROI "CSRT").windowsDestroyed = false ∧
    (runKCF envEmptyROI "KCF").videoOpenAttempted = true ∧
    (runKCF envEmptyROI "KCF").windowShown = true ∧
    (runKCF envEmptyROI "KCF").videoReleased = false ∧
    (runKCF envEmptyROI "KCF").windowsDestroyed = false := by
  decide

/-- C3: for every algorithm name outside the script's enumerated set
(ALL.py: the seven `TRACKER_TYPES`; KCF.py: `KCF` alone), the run
terminates before `cv2.VideoCapture` is called and the output file is
neither created nor overwritten. -/
theorem C3_unsupported_name_exits_before_open (env : Env) (name : String) :
    (pyUpper name ∉ TRACKER_TYPES →
      (runALL env name).videoOpenAttempted = false ∧
      (runALL env name).fileLines = none) ∧
    (pyUpper name ≠ "KCF" →
      (runKCF env name).videoOpenAttempted = false ∧
      (runKCF env name).fileLines = none) := by
  constructor
  · intro h
    rw [runALL, create_tracker_by_name_eq_none env.ctorOk name h]
    exact ⟨rfl, rfl⟩
  · intro h
    rw [runKCF, create_tracker_eq_none env.ctorOk env.legacyKCF name h]
    exact ⟨rfl, rfl⟩

theorem C3_witness :
    ((pyUpper "foo" ∉ TRACKER_TYPES →
      (runALL exEnv "foo").videoOpenAttempted = false ∧
      (runALL exEnv "foo").fileLines = none) ∧
    (pyUpper "foo" ≠ "KCF" →
      (runKCF exEnv "foo").videoOpenAttempted = false ∧
      (runKCF exEnv "foo").fileLines = none)) ∧
    (runALL exEnv "foo").videoOpenAttempted = false ∧
    (runALL exEnv "foo").fileLines = none ∧
    (runKCF exEnv "foo").videoOpenAttempted = false ∧
    (runKCF exEnv "foo").fileLines = none := by
  have h := C3_unsupported_name_exits_before_open exEnv "foo"
  exact ⟨h, (h.1 (by decide)).1, (h.1 (by decide)).2,
    (h.2 (by decide)).1, (h.2 (by decide)).2⟩

/-- C4: when the video source cannot be opened, both scripts exit with
the output file never created and `tracker.init` never called. -/
theorem C4_unopenable_source (env : Env) (nameA nameK : String)
    (h : env.videoOpens = false) :
    (runALL env nameA).fileLines = none ∧
    (runALL env nameA).initCalls = 0 ∧
    (runKCF env nameK).fileLines = none ∧
    (runKCF env nameK).initCalls = 0 := by
  cases hc : create_tracker_by_name env.ctorOk nameA <;>
    cases hk : create_tracker env.ctorOk env.legacyKCF nameK <;>
      simp [runALL, runKCF, hc, hk, h]

theorem C4_witness :
    envNoVideo.videoOpens = false ∧
    (runALL envNoVideo "CSRT").fileLines = none ∧
    (runALL envNoVideo "CSRT").initCalls = 0 ∧
    (runKCF envNoVideo "KCF").fileLines = none ∧
    (runKCF envNoVideo "KCF").initCalls = 0 := by
  have h := C4_unopenable_source envNoVideo "CSRT" "KCF" (by decide)
  exact ⟨by decide, h.1, h.2.1, h.2.2.1, h.2.2.2⟩

/-- C5: when the user-drawn region has zero width or zero height, both
scripts exit before `open(OUTPUT_TXT, "w")` and before
`tracker.init`. -/
theorem C5_empty_roi_exits_early (env : Env) (nameA nameK : String)
    (h : env.roiW = 0 ∨ env.roiH = 0) :
    (runALL env nameA).fileLines = none ∧
    (runALL env nameA).initCalls = 0 ∧
    (runKCF env nameK).fileLines = none ∧
    (runKCF env nameK).initCalls = 0 := by
  cases hc : create_tracker_by_name env.ctorOk nameA <;>
    cases hk : create_tracker env.ctorOk env.legacyKCF nameK <;>
      cases hv : env.videoOpens <;>
        by_cases hn : 1 ≤ env.numFrames <;>
          simp [runALL, runKCF, hc, hk, hv, hn, h]

theorem C5_witness :
    (envEmptyROI.roiW = 0 ∨ envEmptyROI.roiH = 0) ∧
    (runALL envEmptyROI "CSRT").fileLines = none ∧
    (runALL envEmptyROI "CSRT").initCalls = 0 ∧
    (runKCF envEmptyROI "KCF").fileLines = none ∧
    (runKCF envEmptyROI "KCF").initCalls = 0 := by
  have h := C5_empty_roi_exits_early envEmptyROI "CSRT" "KCF"
    (Or.inl (by decide))
  exact ⟨Or.inl (by decide), h.1, h.2.1, h.2.2.1, h.2.2.2⟩

/-- C6: a tracking failure is non-terminal: in a run to exhaustion,
whenever the tracker's update fails on some frame `j`, the file's
row for that frame is the sentinel, that frame's render is the warning
overlay and not a rectangle, `tracker.init` is called exactly once
(never re-initialised), and the loop still processes all
(total frames - 1) frames. -/
theorem C6_tracking_failure_nonterminal (env : Env)
    (nameA nameK tA tK : String)
    (hcA : create_tracker_by_name env.ctorOk nameA = some tA)
    (hcK : create_tracker env.ctorOk env.legacyKCF nameK = some tK)
    (hv : env.videoOpens = true) (hn : 1 ≤ env.numFrames)
    (hw : env.roiW ≠ 0) (hh : env.roiH ≠ 0)
    (hout : env.outputWritable = true)
    (hesc : ∀ n, env.esc n = false)
    (j : Nat) (hj2 : 2 ≤ j) (hjN : j ≤ env.numFrames)
    (hfail : env.update j = none) :
    (runALL env nameA).initCalls = 1 ∧
    (runKCF env nameK).initCalls = 1 ∧
    (runALL env nameA).renders = (runKCF env nameK).renders ∧
    (runALL env nameA).renders.length = env.numFrames - 1 ∧
    (runALL env nameA).renders[j - 2]? = some ⟨j, false, true⟩ ∧
    (∃ lsA lsK, (runALL env nameA).fileLines = some lsA ∧
      (runKCF env nameK).fileLines = some lsK ∧
      dataRows lsA = dataRows lsK ∧
      (dataRows lsA).length = env.numFrames - 1 ∧
      (dataRows lsA)[j - 2]? =
        some (Line.data j (-1) (-1) (-1) (-1))) := by
  have hA := runALL_success env nameA tA hcA hv hn hw hh hout
  have hK := runKCF_success env nameK tK hcK hv hn hw hh hout
  rw [trackLoop_noEsc env.update env.esc hesc (env.numFrames - 1) 1]
    at hA hK
  have hidx : j - 2 < env.numFrames - 1 := by omega
  have hjeq : 2 + (j - 2) = j := by omega
  rw [hA, hK]
  refine ⟨rfl, rfl, rfl, ?_, ?_, ?_⟩
  · show ((List.range' 2 (env.numFrames - 1)).map
        (renderFor env.update)).length = env.numFrames - 1
    rw [List.length_map, List.length_range']
  · show ((List.range' 2 (env.numFrames - 1)).map
        (renderFor env.update))[j - 2]? = some ⟨j, false, true⟩
    rw [getElem?_map_range' (renderFor env.update) 2 (env.numFrames - 1)
      (j - 2) hidx, hjeq]
    simp [renderFor, hfail]
  · refine ⟨_, _, rfl, rfl, ?_, ?_, ?_⟩
    · rw [dataRows_cons_header (Line.algoHeader nameA) rfl,
        dataRows_cons_header Line.colHeader rfl]
    · rw [dataRows_cons_header (Line.algoHeader nameA) rfl,
        dataRows_cons_header Line.colHeader rfl, dataRows_map_lineFor,
        List.length_map, List.length_range']
    · rw [dataRows_cons_header (Line.algoHeader nameA) rfl,
        dataRows_cons_header Line.colHeader rfl, dataRows_map_lineFor,
        getElem?_map_range' (lineFor env.update) 2 (env.numFrames - 1)
          (j - 2) hidx, hjeq]
      simp [lineFor, hfail]

theorem C6_witness :
    (runALL exEnv "CSRT").initCalls = 1 ∧
    (runKCF exEnv "KCF").initCalls = 1 ∧
    (runALL exEnv "CSRT").renders = (runKCF exEnv "KCF").renders ∧
    (runALL exEnv "CSRT").renders.length = exEnv.numFrames - 1 ∧
    (runALL exEnv "CSRT").renders[3 - 2]? = some ⟨3, false, true⟩ ∧
    (∃ lsA lsK, (runALL exEnv "CSRT").fileLines = some lsA ∧
      (runKCF exEnv "KCF").fileLines = some lsK ∧
      dataRows lsA = dataRows lsK ∧
      (dataRows lsA).length = exEnv.numFrames - 1 ∧
      (dataRows lsA)[3 - 2]? =
        some (Line.data 3 (-1) (-1) (-1) (-1))) := by
  exact C6_tracking_failure_nonterminal exEnv "CSRT" "KCF" "CSRT" "KCF"
    (by decide) (by decide) (by decide) (by decide) (by decide)
    (by decide) (by decide) (fun n => rfl) 3 (by decide) (by decide)
    (by decide)

/-- C7: algorithm-name dispatch is an exact case-insensitive match
against the script's enumerated set (ALL.py: `TRACKER_TYPES`; KCF.py:
`KCF` alone): a name whose uppercase form is enumerated yields the
constructor's tracker, any other name yields `None`, and a `None`
tracker makes the run exit before any frame is processed. -/
theorem C7_dispatch_case_insensitive (env : Env) (name : String) :
    (pyUpper name ∈ TRACKER_TYPES → env.ctorOk (pyUpper name) = true →
      create_tracker_by_name env.ctorOk name = some (pyUpper name)) ∧
    (pyUpper name ∉ TRACKER_TYPES →
      create_tracker_by_name env.ctorOk name = none) ∧
    (create_tracker_by_name env.ctorOk name = none →
      (runALL env name).renders = [] ∧
      (runALL env name).fileLines = none) ∧
    (pyUpper name = "KCF" → env.ctorOk "KCF" = true →
      create_tracker env.ctorOk env.legacyKCF name = some "KCF") ∧
    (pyUpper name ≠ "KCF" →
      create_tracker env.ctorOk env.legacyKCF name = none) ∧
    (create_tracker env.ctorOk env.legacyKCF name = none →
      (runKCF env name).renders = [] ∧
      (runKCF env name).fileLines = none) := by
  refine ⟨?_, ?_, ?_, ?_, ?_, ?_⟩
  · exact fun h hc => create_tracker_by_name_eq_some env.ctorOk name h hc
  · exact fun h => create_tracker_by_name_eq_none env.ctorOk name h
  · intro h
    rw [runALL, h]
    exact ⟨rfl, rfl⟩
  · exact fun h hc => create_tracker_eq_some env.ctorOk env.legacyKCF name h hc
  · exact fun h => create_tracker_eq_none env.ctorOk env.legacyKCF name h
  · intro h
    rw [runKCF, h]
    exact ⟨rfl, rfl⟩

theorem C7_witness :
    create_tracker_by_name exEnv.ctorOk "csrt" = some "CSRT" ∧
    create_tracker_by_name exEnv.ctorOk "foobar" = none ∧
    (runALL exEnv "foobar").renders = [] ∧
    (runALL exEnv "foobar").fileLines = none ∧
    create_tracker exEnv.ctorOk exEnv.legacyKCF "kcf" = some "KCF" ∧
    create_tracker exEnv.ctorOk exEnv.legacyKCF "mil" = none ∧
    (runKCF exEnv "mil").renders = [] ∧
    (runKCF exEnv "mil").fileLines = none := by
  have hs := (C7_dispatch_case_insensitive exEnv "csrt").1
    (by decide) (by decide)
  have hn := (C7_dispatch_case_insensitive exEnv "foobar").2.1 (by decide)
  have hx := (C7_dispatch_case_insensitive exEnv "foobar").2.2.1 hn
  have hks := (C7_dispatch_case_insensitive exEnv "kcf").2.2.2.1
    (by decide) (by decide)
  have hkn := (C7_dispatch_case_insensitive exEnv "mil").2.2.2.2.1
    (by decide)
  have hkx := (C7_dispatch_case_insensitive exEnv "mil").2.2.2.2.2 hkn
  exact ⟨hs, hn, hx.1, hx.2, hks, hkn, hkx.1, hkx.2⟩

/-- C8: the output file is truncated and rewritten, never appended:
after two consecutive runs whose second reaches the writing stage, the
file holds exactly the second run's lines, whatever the file held
before and whatever the first run did. -/
theorem C8_output_truncated_not_appended (prevA prevK : Option (List Line))
    (envA1 envA2 envK1 envK2 : Env) (nA1 nA2 nK1 nK2 : String)
    (lsA lsK : List Line)
    (hA : (runALL envA2 nA2).fileLines = some lsA)
    (hK : (runKCF envK2 nK2).fileLines = some lsK) :
    fileAfterALL (fileAfterALL prevA envA1 nA1) envA2 nA2 = some lsA ∧
    fileAfterKCF (fileAfterKCF prevK envK1 nK1) envK2 nK2 = some lsK := by
  constructor
  · rw [fileAfterALL, hA]
  · rw [fileAfterKCF, hK]

theorem C8_witness :
    fileAfterALL (fileAfterALL (some [Line.colHeader]) envNoVideo "CSRT")
      exEnv "CSRT" =
      some [Line.algoHeader "CSRT", Line.colHeader,
        Line.data 2 7 8 9 10, Line.data 3 (-1) (-1) (-1) (-1)] ∧
    fileAfterKCF (fileAfterKCF (some [Line.colHeader]) envNoVideo "KCF")
      exEnv "KCF" =
      some [Line.colHeader,
        Line.data 2 7 8 9 10, Line.data 3 (-1) (-1) (-1) (-1)] := by
  exact C8_output_truncated_not_appended (some [Line.colHeader])
    (some [Line.colHeader]) envNoVideo exEnv envNoVideo exEnv
    "CSRT" "CSRT" "KCF" "KCF" _ _ (by decide) (by decide)

/-- C10: in every output file either script writes, the frame ids of
the data rows count up by exactly one from 2, whether a row records a
success or a failure sentinel, and whether the loop ended by source
exhaustion or by an escape press. -/
theorem C10_frame_ids_start_at_two (env : Env) (nameA nameK : String)
    (lsA lsK : List Line)
    (hA : (runALL env nameA).fileLines = some lsA)
    (hK : (runKCF env nameK).fileLines = some lsK) :
    lineIds lsA = List.range' 2 (lineIds lsA).length ∧
    lineIds lsK = List.range' 2 (lineIds lsK).length := by
  rw [runALL_fileLines_some env nameA lsA hA,
    runKCF_fileLines_some env nameK lsK hK,
    lineIds_cons_algoHeader, lineIds_cons_colHeader]
  exact ⟨trackLoop_ids env.update env.esc (env.numFrames - 1) 1,
    trackLoop_ids env.update env.esc (env.numFrames - 1) 1⟩

theorem C10_witness :
    lineIds [Line.algoHeader "CSRT", Line.colHeader,
        Line.data 2 7 8 9 10, Line.data 3 (-1) (-1) (-1) (-1)] =
      List.range' 2 (lineIds [Line.algoHeader "CSRT", Line.colHeader,
        Line.data 2 7 8 9 10, Line.data 3 (-1) (-1) (-1) (-1)]).length ∧
    lineIds [Line.colHeader,
        Line.data 2 7 8 9 10, Line.data 3 (-1) (-1) (-1) (-1)] =
      List.range' 2 (lineIds [Line.colHeader,
        Line.data 2 7 8 9 10, Line.data 3 (-1) (-1) (-1) (-1)]).length := by
  exact C10_frame_ids_start_at_two exEnv "CSRT" "KCF"
    [Line.algoHeader "CSRT", Line.colHeader,
      Line.data 2 7 8 9 10, Line.data 3 (-1) (-1) (-1) (-1)]
    [Line.colHeader,
      Line.data 2 7 8 9 10, Line.data 3 (-1) (-1) (-1) (-1)]
    (by decide) (by decide)

/-- C9: in ALL.py an out-of-range `SELECTED_INDEX` does not terminate
the process: the name falls back to `KCF` and the run proceeds exactly
as a run configured with `KCF`. -/
theorem C9_out_of_range_index_falls_back (env : Env) (i : Int)
    (h : ¬(0 ≤ i ∧ i < (TRACKER_TYPES.length : Int))) :
    chooseName i = "KCF" ∧ mainALL env i = runALL env "KCF" := by
  have hc : chooseName i = "KCF" := by rw [chooseName, if_neg h]
  exact ⟨hc, by rw [mainALL, hc]⟩

theorem C9_witness :
    chooseName 9 = "KCF" ∧ mainALL exEnv 9 = runALL exEnv "KCF" := by
  exact C9_out_of_range_index_falls_back exEnv 9 (by decide)

end Exp
